import Mathlib

/-
Shallow embedding of `src/monitor.py` (Heimdallr01/M2), a single-target
web-page change monitor: load state → conditional HTTP GET → extract and
normalize text → hash comparison → bounded unified diff + push
notification → persist state.

Modelling conventions:
* The persisted `state.json` file is a `Option MonitorState` value
  (`none` = file absent); `save_state` returns the new file contents.
  JSON serialization itself is external and not modelled.
* External library collaborators are explicit inputs:
  - `requests.get` outcome is an `HttpGetOutcome` value (network
    exception, or a response with status, caching headers and the
    BeautifulSoup-extracted visible text);
  - the result of `re.sub(IGNORE_REGEX, "", text)` is an
    `Option String` input (`none` = the pattern failed to compile,
    i.e. `re.error` was raised and caught);
  - `hashlib.sha256(...).hexdigest()` and
    `difflib.unified_diff(·, ·, lineterm="", n=5)` are fields of the
    parameter record `Hx`;
  - `time.strftime(...)` is the `nowStr` argument, and the two
    `int(time.time())` calls at monitor.py:122 and monitor.py:126 are
    the `tUpd` and `tOk` arguments;
  - `requests.post` inside `send_ntfy` may raise (`postRaises`).
* Python `str.splitlines`, `"\n".join`, `str.replace`, `str.strip` and
  the fixed normalization regex `re.sub(r"\s+\n", "\n", ·)` are
  implemented below on character lists (`\s` is modelled over the
  ASCII whitespace characters, which is exact for every input the
  claims exercise).
-/

namespace Monitor

/-- ASCII model of the Python regex class `\s` (space, tab, newline,
carriage return, vertical tab, form feed). -/
def isPySpace (c : Char) : Bool :=
  c == ' ' || c == '\t' || c == '\n' || c == '\r' || c.toNat == 11 || c.toNat == 12

/-- Model of the line-break characters recognized by Python
`str.splitlines`: `\n`, `\r`, `\v`, `\f`, FS, GS, RS, NEL, LINE
SEPARATOR, PARAGRAPH SEPARATOR (`\r\n` is handled as one break in
`splitLinesGo`). -/
def isPyLineBreak (c : Char) : Bool :=
  c == '\n' || c == '\r' || c.toNat == 11 || c.toNat == 12 ||
  c.toNat == 28 || c.toNat == 29 || c.toNat == 30 || c.toNat == 133 ||
  c.toNat == 8232 || c.toNat == 8233

/-- The two-character break `"\r\n"` counts as a single line break in
Python `str.splitlines`; collapsing each `"\r\n"` pair to `"\n"` first
lets the splitter treat breaks character by character. -/
def collapseCrLf : List Char → List Char
  | [] => []
  | '\r' :: '\n' :: rest => '\n' :: collapseCrLf rest
  | c :: rest => c :: collapseCrLf rest

/-- Worker for `pySplitlines`: `cur` is the (reversed) current line. A
trailing line break does not open a final empty line, matching Python. -/
def splitLinesGo (cur : List Char) : List Char → List (List Char)
  | [] => [cur.reverse]
  | c :: cs =>
      if isPyLineBreak c then cur.reverse :: (if cs = [] then [] else splitLinesGo [] cs)
      else splitLinesGo (c :: cur) cs

/-- Python `str.splitlines` (`"".splitlines() == []`, no trailing empty
line for a trailing newline, `"\r\n"` is one break). -/
def pySplitlines (s : String) : List String :=
  if s.data = [] then [] else (splitLinesGo [] (collapseCrLf s.data)).map String.mk

/-- Character data of Python `"\n".join(ls)`. -/
def joinNlData : List String → List Char
  | [] => []
  | [a] => a.data
  | a :: b :: t => a.data ++ '\n' :: joinNlData (b :: t)

/-- Python `"\n".join(ls)`. -/
def pyJoinNl (ls : List String) : String := ⟨joinNlData ls⟩

/-- Python `str.strip()` on ASCII whitespace. -/
def pyStrip (s : String) : String :=
  ⟨((s.data.dropWhile isPySpace).reverse.dropWhile isPySpace).reverse⟩

/-- Worker for `subWsNewline`, running over the REVERSED character
list: after emitting a newline it drops the whitespace run that
preceded it in the original string. -/
def stripWsNlGo : Nat → List Char → List Char
  | _, [] => []
  | 0, l => l
  | fuel + 1, c :: cs =>
      if c == '\n' then c :: stripWsNlGo fuel (cs.dropWhile isPySpace)
      else c :: stripWsNlGo fuel cs

/-- Python `re.sub(r"\s+\n", "\n", s)` (monitor.py:89): every maximal
whitespace run immediately preceding a newline is deleted together
with any newlines it contains, keeping the final newline. -/
def subWsNewline (s : String) : String :=
  ⟨(stripWsNlGo s.data.reverse.length s.data.reverse).reverse⟩

/-- Worker for `pyReplace`: fueled scan replacing each left-most,
non-overlapping occurrence of `pat` by `rep`. -/
def replaceGo (pat rep : List Char) : Nat → List Char → List Char
  | _, [] => []
  | 0, l => l
  | fuel + 1, c :: cs =>
      if pat.isPrefixOf (c :: cs) then rep ++ replaceGo pat rep fuel ((c :: cs).drop pat.length)
      else c :: replaceGo pat rep fuel cs

/-- Python `s.replace(pat, rep)`: all non-overlapping occurrences,
scanned left to right; an empty pattern intersperses `rep` around
every character, as in Python. -/
def pyReplace (s pat rep : String) : String :=
  if pat.data = [] then ⟨rep.data ++ (s.data.map (fun c => c :: rep.data)).flatten⟩
  else ⟨replaceGo pat.data rep.data s.data.length s.data⟩

/-- Configuration values (monitor.py:7-20), after the `.strip()` /
`.rstrip("/")` and defaulting applied at load; absent `TARGET_URL` is
the empty string (both `None` and `""` are falsy for the assert). -/
structure Config where
  TARGET_URL : String
  CSS_SELECTOR : String
  IGNORE_REGEX : String
  USER_AGENT : String
  NTFY_SERVER : String
  NTFY_TOPIC : String
  NOTIFY_TEMPLATE : String
  NOTIFY_PREFIX : String
  NOTIFY_TITLE : String
deriving DecidableEq

/-- The persisted state record (monitor.py:25-32 and spec §3). -/
structure MonitorState where
  last_hash : Option String
  last_excerpt : String
  updated_at : Option Int
  etag : Option String
  last_modified : Option String
  last_ok_run : Option Int
deriving DecidableEq

/-- The default record built by `load_state` when `state.json` is
absent (monitor.py:25-32). -/
def default_state : MonitorState :=
  { last_hash := none, last_excerpt := "", updated_at := none,
    etag := none, last_modified := none, last_ok_run := none }

/-- `load_state` (monitor.py:22-32): the file's record if the file
exists, else the default record. -/
def load_state (file : Option MonitorState) : MonitorState :=
  match file with
  | some s => s
  | none => default_state

/-- `save_state` (monitor.py:34-35): the new contents of `state.json`. -/
def save_state (state : MonitorState) : Option MonitorState :=
  some state

/-- Errors a run can propagate. -/
inductive PyError where
  | assertionFailed
  | requestsException
  | httpStatus (status : Nat)
deriving DecidableEq

/-- Outcome of `requests.get` at monitor.py:66: either the call raised
(network error / timeout), or a response arrived carrying a status
code, the optional `ETag` / `Last-Modified` headers, the text
BeautifulSoup extracts from the body (monitor.py:75-81, an external
collaborator), and the outcome of `re.sub(IGNORE_REGEX, "", text)`
(`none` = the pattern is invalid and `re.error` is raised). -/
inductive HttpGetOutcome where
  | raised
  | resp (status : Nat) (etagHdr lmHdr : Option String) (extracted : String)
      (ignoreSub : Option String)
deriving DecidableEq

/-- Successful result of `fetch_content`: the source's 4-tuple
`(content, etag, last_modified, not_modified)` split by the
`not_modified` flag (the content is `None` exactly when the flag is
set). -/
inductive FetchOk where
  | notModified (etag last_modified : Option String)
  | modified (content : String) (etag last_modified : Option String)
deriving DecidableEq

/-- Python `headers.get(name, fallback)` for an optional header. -/
def headerOr (hdr fallback : Option String) : Option String :=
  match hdr with
  | some h => some h
  | none => fallback

/-- `fetch_content` (monitor.py:59-90). A 304 returns the sentinel and
preserves the input validators; `raise_for_status` raises exactly for
4xx/5xx; otherwise validators fall back to the inputs, the ignore
pattern is applied when configured (an invalid pattern is skipped via
`except re.error: pass`), and the text is normalized by
`re.sub(r"\s+\n", "\n", text).strip()`. -/
def fetch_content (cfg : Config) (etag last_modified : Option String)
    (out : HttpGetOutcome) : Except PyError FetchOk :=
  match out with
  | .raised => .error .requestsException
  | .resp status etagHdr lmHdr extracted ignoreSub =>
      if status = 304 then .ok (.notModified etag last_modified)
      else if 400 ≤ status ∧ status < 600 then .error (.httpStatus status)
      else
        let etag_new := headerOr etagHdr etag
        let lm_new := headerOr lmHdr last_modified
        let text0 := extracted
        let text1 :=
          if cfg.IGNORE_REGEX ≠ "" then
            match ignoreSub with
            | some t => t
            | none => text0
          else text0
        let text2 := pyStrip (subWsNewline text1)
        .ok (.modified text2 etag_new lm_new)

/-- One attempted POST to the ntfy endpoint (monitor.py:41-43). -/
structure Post where
  url : String
  title : String
  body : String
deriving DecidableEq

/-- `send_ntfy` (monitor.py:37-45): no-op when no topic is configured;
otherwise one POST to `{server}/{topic}` is attempted, and whether or
not `requests.post` raises, `except Exception: pass` swallows the
failure, so no error ever escapes (second component always `none`). -/
def send_ntfy (cfg : Config) (postRaises : Bool) (title text : String) :
    List Post × Option PyError :=
  if cfg.NTFY_TOPIC = "" then ([], none)
  else
    let url := cfg.NTFY_SERVER ++ "/" ++ cfg.NTFY_TOPIC
    let attempt : Post := { url := url, title := title, body := text }
    if postRaises then ([attempt], none) else ([attempt], none)

/-- `build_message` (monitor.py:47-57): with a template, sequential
literal substitution of {URL}, then {TIME}, then {DIFF}; otherwise
the default multi-line German message. The formatted local time is
the `nowStr` argument. -/
def build_message (cfg : Config) (nowStr url diff_block : String) : String :=
  if cfg.NOTIFY_TEMPLATE ≠ "" then
    pyReplace (pyReplace (pyReplace cfg.NOTIFY_TEMPLATE "{URL}" url) "{TIME}" nowStr)
      "{DIFF}" diff_block
  else
    cfg.NOTIFY_PREFIX ++ "\nURL: " ++ url ++ "\nZeit: " ++ nowStr ++
      "\n\n*Kurzdiff:*\n```\n" ++ diff_block ++ "\n```"

/-- The diff rendering at monitor.py:115: first 60 diff lines joined
by newlines, or the fixed placeholder when the diff is empty. -/
def render_diff (diff_lines : List String) : String :=
  if diff_lines = [] then "(Inhalt geändert)" else pyJoinNl (diff_lines.take 60)

/-- External hash and diff collaborators: `hashlib.sha256(·).hexdigest()`
(monitor.py:92-93) and `difflib.unified_diff(·, ·, lineterm="", n=5)`
(monitor.py:114). -/
structure Hx where
  sha256 : String → String
  unified_diff : List String → List String → List String

/-- Observable result of one run of `main`: the final contents of
`state.json`, the POSTs attempted against the ntfy endpoint, the
`(title, text)` arguments of the `send_ntfy` call when one was made,
and the propagated error, if any. -/
structure RunResult where
  file : Option MonitorState
  posts : List Post
  notified : Option (String × String)
  err : Option PyError
deriving DecidableEq

/-- `main` (monitor.py:95-127) as a pure function of the prior file
contents and the run's external inputs. An error from `fetch_content`
propagates before any `save_state`; a 304 persists only `last_ok_run`;
otherwise the hash comparison decides whether the snapshot fields and
a notification happen, and the validator / `last_ok_run` bookkeeping
closes the run. -/
def main (cfg : Config) (hx : Hx) (file0 : Option MonitorState)
    (out : HttpGetOutcome) (nowStr : String) (postRaises : Bool)
    (tUpd tOk : Int) : RunResult :=
  if cfg.TARGET_URL = "" then
    { file := file0, posts := [], notified := none, err := some .assertionFailed }
  else
    let state := load_state file0
    match fetch_content cfg state.etag state.last_modified out with
    | .error e => { file := file0, posts := [], notified := none, err := some e }
    | .ok (.notModified _ _) =>
        { file := save_state { state with last_ok_run := some tOk },
          posts := [], notified := none, err := none }
    | .ok (.modified content etag lm) =>
        let new_hash := hx.sha256 content
        let old_hash := state.last_hash
        if some new_hash ≠ old_hash then
          let old := pySplitlines state.last_excerpt
          let nw := pySplitlines content
          let diff_lines := hx.unified_diff old nw
          let pretty_diff := render_diff diff_lines
          let text := build_message cfg nowStr cfg.TARGET_URL pretty_diff
          let np := send_ntfy cfg postRaises cfg.NOTIFY_TITLE text
          let state1 := { state with
            last_hash := some new_hash,
            last_excerpt := pyJoinNl ((pySplitlines content).take 400),
            updated_at := some tUpd }
          let state2 := { state1 with
            etag := etag, last_modified := lm, last_ok_run := some tOk }
          { file := save_state state2, posts := np.1,
            notified := some (cfg.NOTIFY_TITLE, text), err := np.2 }
        else
          let state2 := { state with
            etag := etag, last_modified := lm, last_ok_run := some tOk }
          { file := save_state state2, posts := [], notified := none, err := none }

/-- Validators carried by a `fetch_content` success. -/
def fetchedEtag : FetchOk → Option String
  | .notModified e _ => e
  | .modified _ e _ => e

/-- Last-Modified validator carried by a `fetch_content` success. -/
def fetchedLm : FetchOk → Option String
  | .notModified _ l => l
  | .modified _ _ l => l

/-- Whether the change detector fires for a given fetch result
(monitor.py:111): never on 304, on content exactly when the new
fingerprint differs from the stored `last_hash`. -/
def changeDetected (hx : Hx) (st : MonitorState) : FetchOk → Bool
  | .notModified _ _ => false
  | .modified t _ _ => decide (some (hx.sha256 t) ≠ st.last_hash)

/-- Number of lines of a string, in the sense of `pySplitlines`. -/
def lineCount (s : String) : Nat := (pySplitlines s).length

/-- Whether `sub` occurs as a contiguous substring. -/
def hasSubstr (sub : List Char) : List Char → Bool
  | [] => sub = []
  | c :: cs => sub.isPrefixOf (c :: cs) || hasSubstr sub cs

/-- Concrete configuration used by the witnesses: no template, a
configured topic, default title. -/
def cfgBase : Config :=
  { TARGET_URL := "https://example.com", CSS_SELECTOR := "", IGNORE_REGEX := "",
    USER_AGENT := "ChangeWatcher/1.2 (+github actions)",
    NTFY_SERVER := "https://ntfy.sh", NTFY_TOPIC := "alerts",
    NOTIFY_TEMPLATE := "", NOTIFY_PREFIX := "🔔 Änderung erkannt",
    NOTIFY_TITLE := "Ergebnis M2" }

/-- Configuration with the spec's example template configured. -/
def cfgTpl : Config := { cfgBase with NOTIFY_TEMPLATE := "{URL} changed at {TIME}: {DIFF}" }

/-- Configuration with an invalid ignore pattern configured (an
unbalanced parenthesis fails to compile as a regular expression). -/
def cfgIgn : Config := { cfgBase with IGNORE_REGEX := "(" }

/-- Concrete instantiation of the external hash / diff collaborators
used by the witnesses: an injective-on-the-inputs fingerprint and a
diff that is empty exactly on equal line sequences. -/
def hxId : Hx :=
  { sha256 := fun s => s,
    unified_diff := fun a b => if a = b then [] else ["@@ -1 +1 @@"] }

/-- Concrete prior state used by several witnesses. -/
def stA : MonitorState :=
  { last_hash := some "oldhash", last_excerpt := "line one", updated_at := some 11,
    etag := some "old", last_modified := some "lmv", last_ok_run := some 5 }

/-- A previous content of 401 lines (strictly more than the 400-line
excerpt bound). -/
def oldFull : String := pyJoinNl (List.replicate 401 "a")

/-- The stored 400-line excerpt of `oldFull`. -/
def oldExcerpt : String := pyJoinNl ((pySplitlines oldFull).take 400)

/-- Stored state whose hash is the fingerprint of the full 401-line
content while the excerpt keeps only its first 400 lines. -/
def st9 : MonitorState :=
  { last_hash := some (hxId.sha256 oldFull), last_excerpt := oldExcerpt,
    updated_at := some 3, etag := none, last_modified := none, last_ok_run := some 4 }

end Monitor

deriving instance DecidableEq for Except

namespace Monitor

/-- Reduction of `splitLinesGo` over a non-break character. -/
theorem splitLinesGo_nonbreak (cur : List Char) (c : Char) (cs : List Char)
    (h : isPyLineBreak c = false) :
    splitLinesGo cur (c :: cs) = splitLinesGo (c :: cur) cs := by
  simp only [splitLinesGo, h]
  simp

/-- Reduction of `splitLinesGo` at a newline. -/
theorem splitLinesGo_newline (cur cs : List Char) :
    splitLinesGo cur ('\n' :: cs) =
      cur.reverse :: (if cs = [] then [] else splitLinesGo [] cs) := by
  simp only [splitLinesGo]
  have hn : isPyLineBreak '\n' = true := rfl
  rw [hn]
  simp

/-- Reduction of `collapseCrLf` over a character other than CR. -/
theorem collapseCrLf_cons (c : Char) (cs : List Char) (h : ¬c = '\r') :
    collapseCrLf (c :: cs) = c :: collapseCrLf cs := by
  rw [collapseCrLf.eq_def]
  split
  · simp_all
  · simp_all
  · rename_i heq
    injection heq with h1 h2
    rw [h1, h2]

/-- A CR-free character list is unchanged by `collapseCrLf`. -/
theorem collapseCrLf_id (l : List Char) (h : ∀ c ∈ l, ¬c = '\r') :
    collapseCrLf l = l := by
  induction l with
  | nil => rfl
  | cons c cs ih =>
      rw [collapseCrLf_cons c cs (h c (by simp)),
        ih (fun x hx => h x (by simp [hx]))]

/-- Characters of a newline-join of break-free lines are never CR. -/
theorem joinNlData_no_cr (ls : List String)
    (h : ∀ l ∈ ls, ∀ c ∈ l.data, isPyLineBreak c = false) :
    ∀ c ∈ joinNlData ls, ¬c = '\r' := by
  induction ls with
  | nil => simp [joinNlData]
  | cons a t ih =>
      cases t with
      | nil =>
          intro c hc heq
          have hb := h a (by simp) c (by simpa [joinNlData] using hc)
          rw [heq] at hb
          simp [isPyLineBreak] at hb
      | cons b t' =>
          intro c hc
          simp only [joinNlData, List.mem_append, List.mem_cons] at hc
          rcases hc with hc | hc | hc
          · intro heq
            have hb := h a (by simp) c hc
            rw [heq] at hb
            simp [isPyLineBreak] at hb
          · rw [hc]; decide
          · exact ih (fun l hl => h l (by simp [hl])) c hc

/-- A break-free prefix is consumed into the current line. -/
theorem splitLinesGo_append (line : List Char)
    (h : ∀ c ∈ line, isPyLineBreak c = false) :
    ∀ cur rest, splitLinesGo cur (line ++ rest) = splitLinesGo (line.reverse ++ cur) rest := by
  induction line with
  | nil => intro cur rest; simp
  | cons c t ih =>
      intro cur rest
      have hc : isPyLineBreak c = false := h c (by simp)
      rw [List.cons_append, splitLinesGo_nonbreak _ _ _ hc,
        ih (fun x hx => h x (by simp [hx]))]
      simp

/-- Joining `ls` with newlines yields at most `ls.length` lines when
no element contains a line break. -/
theorem splitlines_joinNl_length_le (ls : List String)
    (h : ∀ l ∈ ls, ∀ c ∈ l.data, isPyLineBreak c = false) :
    (pySplitlines (pyJoinNl ls)).length ≤ ls.length := by
  induction ls with
  | nil => simp [pySplitlines, pyJoinNl, joinNlData]
  | cons a t ih =>
      have hAcr : ∀ c ∈ a.data, ¬c = '\r' := by
        intro c hc heq
        have hb := h a (by simp) c hc
        rw [heq] at hb
        simp [isPyLineBreak] at hb
      cases t with
      | nil =>
          by_cases ha : a.data = []
          · simp [pySplitlines, pyJoinNl, joinNlData, ha]
          · have hcr : collapseCrLf a.data = a.data := collapseCrLf_id _ hAcr
            have hs := splitLinesGo_append a.data (h a (by simp)) [] []
            simp only [List.append_nil] at hs
            have hnil : splitLinesGo a.data.reverse [] = [a.data.reverse.reverse] := rfl
            simp [pySplitlines, pyJoinNl, joinNlData, ha, hcr, hs, hnil]
      | cons b t' =>
          have hJcr : collapseCrLf (joinNlData (b :: t')) = joinNlData (b :: t') :=
            collapseCrLf_id _ (joinNlData_no_cr _ (fun l hl => h l (by simp [hl])))
          have hcr : collapseCrLf (a.data ++ '\n' :: joinNlData (b :: t')) =
              a.data ++ '\n' :: joinNlData (b :: t') := by
            apply collapseCrLf_id
            intro c hc
            rcases List.mem_append.mp hc with hc | hc
            · exact hAcr c hc
            · rcases List.mem_cons.mp hc with hc | hc
              · rw [hc]; decide
              · exact joinNlData_no_cr _ (fun l hl => h l (by simp [hl])) c hc
          have hne : a.data ++ '\n' :: joinNlData (b :: t') ≠ [] := by simp
          have hs := splitLinesGo_append a.data (h a (by simp)) []
            ('\n' :: joinNlData (b :: t'))
          have iht : (pySplitlines (pyJoinNl (b :: t'))).length ≤ (b :: t').length :=
            ih (fun l hl => h l (by simp [hl]))
          simp only [pyJoinNl, pySplitlines, joinNlData]
          rw [if_neg hne, hcr, hs, splitLinesGo_newline]
          by_cases hJ : joinNlData (b :: t') = []
          · simp [hJ]
          · rw [if_neg hJ]
            rw [pyJoinNl, pySplitlines, if_neg hJ, hJcr] at iht
            simp only [List.map_cons, List.length_cons, List.length_map] at iht ⊢
            omega

/-- `lineCount` form of `splitlines_joinNl_length_le`. -/
theorem lineCount_joinNl_le (ls : List String)
    (h : ∀ l ∈ ls, ∀ c ∈ l.data, isPyLineBreak c = false) :
    lineCount (pyJoinNl ls) ≤ ls.length :=
  splitlines_joinNl_length_le ls h

/-- Inverting `fetch_content` on the not-modified sentinel: the input
validators are preserved unchanged. -/
theorem fetch_notModified_preserves (cfg : Config) (etag lm : Option String)
    (out : HttpGetOutcome) (e l : Option String)
    (h : fetch_content cfg etag lm out = .ok (.notModified e l)) :
    e = etag ∧ l = lm := by
  cases out with
  | raised => simp [fetch_content] at h
  | resp status eh lh x ig =>
      by_cases h304 : status = 304
      · simp [fetch_content, h304] at h
        exact ⟨h.1.symm, h.2.symm⟩
      · by_cases herr : 400 ≤ status ∧ status < 600 <;>
          simp [fetch_content, h304, herr] at h

/-- Claim C1: if the fetch of the target URL fails (non-304, non-2xx
HTTP response, here any 4xx/5xx, or a network/timeout failure), the
run aborts with that error and the persisted state file is left
untouched: no field is written before the error propagates. -/
theorem fetch_failure_leaves_state_untouched (cfg : Config) (hx : Hx)
    (file0 : Option MonitorState) (out : HttpGetOutcome) (nowStr : String)
    (pr : Bool) (tUpd tOk : Int) (e : PyError)
    (hT : cfg.TARGET_URL ≠ "")
    (hf : fetch_content cfg (load_state file0).etag (load_state file0).last_modified out
      = .error e) :
    (main cfg hx file0 out nowStr pr tUpd tOk).file = file0 ∧
    (main cfg hx file0 out nowStr pr tUpd tOk).err = some e := by
  simp [main, hT, hf]

/-- Witness for C1 at a concrete 500 response against a populated
state file. -/
theorem fetch_failure_leaves_state_untouched_witness :
    (main cfgBase hxId (some stA) (.resp 500 none none "x" none) "T" false 1 2).file
      = some stA ∧
    (main cfgBase hxId (some stA) (.resp 500 none none "x" none) "T" false 1 2).err
      = some (.httpStatus 500) :=
  fetch_failure_leaves_state_untouched cfgBase hxId (some stA)
    (.resp 500 none none "x" none) "T" false 1 2 (.httpStatus 500)
    (by decide) (by decide)

/-- Claim C4: for any computed diff line list whose lines are free of
line breaks (as `difflib.unified_diff` lines of break-free inputs
are), the rendered diff never exceeds 60 lines, and an empty diff is
replaced by the fixed placeholder string. -/
theorem rendered_diff_bounded_and_placeholder (ls : List String)
    (hfree : ∀ l ∈ ls, ∀ c ∈ l.data, isPyLineBreak c = false) :
    lineCount (render_diff ls) ≤ 60 ∧
    (ls = [] → render_diff ls = "(Inhalt geändert)") := by
  constructor
  · by_cases he : ls = []
    · rw [he]; decide
    · rw [render_diff, if_neg he]
      calc lineCount (pyJoinNl (ls.take 60))
          ≤ (ls.take 60).length :=
            lineCount_joinNl_le _ (fun l hl => hfree l (List.mem_of_mem_take hl))
        _ ≤ 60 := by
            rw [List.length_take]
            exact Nat.min_le_left _ _
  · intro he
    rw [he]
    rfl

/-- Witness for C4 at a concrete two-line diff. -/
theorem rendered_diff_bounded_and_placeholder_witness :
    lineCount (render_diff ["-a", "+b"]) ≤ 60 ∧
    (["-a", "+b"] = ([] : List String) → render_diff ["-a", "+b"] = "(Inhalt geändert)") :=
  rendered_diff_bounded_and_placeholder ["-a", "+b"] (by decide)

/-- Claim C5: a failure while dispatching the push notification never
escapes `send_ntfy` (the error component is always `none`), and the
whole run result — in particular the persisted state file — is
identical whether or not the dispatch fails. -/
theorem notify_failure_never_blocks_persistence (cfg : Config) (hx : Hx)
    (file0 : Option MonitorState) (out : HttpGetOutcome) (nowStr : String)
    (tUpd tOk : Int) :
    (∀ pr title text, (send_ntfy cfg pr title text).2 = none) ∧
    main cfg hx file0 out nowStr true tUpd tOk
      = main cfg hx file0 out nowStr false tUpd tOk := by
  have hsn : ∀ pr title text, send_ntfy cfg pr title text = send_ntfy cfg false title text := by
    intro pr title text
    cases pr <;> simp [send_ntfy]
  constructor
  · intro pr title text
    by_cases ht : cfg.NTFY_TOPIC = "" <;> cases pr <;> simp [send_ntfy, ht]
  · simp only [main, hsn]

/-- Claim C6, counterexample: on a 404 response carrying a fresh ETag
header, the run aborts and the state file keeps its stale `etag` and
`last_ok_run` — the caching-token/timestamp bookkeeping does NOT
proceed, contrary to the claim. -/
theorem fetch_error_bookkeeping_not_persisted_cex :
    (main cfgBase hxId (some stA) (.resp 404 (some "fresh") none "body" none)
        "T" false 100 100).file = some stA ∧
    stA.etag = some "old" ∧ stA.last_ok_run = some 5 ∧
    (main cfgBase hxId (some stA) (.resp 404 (some "fresh") none "body" none)
        "T" false 100 100).err = some (.httpStatus 404) := by
  decide

/-- Claim C6 as amended: when the fetch fails with a non-success
status other than 304 (a 4xx/5xx response), the run aborts without
mutating the stored snapshot/hash, and the caching-token and
timestamp bookkeeping does not proceed either: the state file is left
entirely untouched. -/
theorem fetch_error_aborts_without_any_persistence (cfg : Config) (hx : Hx)
    (file0 : Option MonitorState) (status : Nat) (eh lh : Option String)
    (x : String) (ig : Option String) (nowStr : String) (pr : Bool) (tUpd tOk : Int)
    (hT : cfg.TARGET_URL ≠ "") (h4 : 400 ≤ status) (h6 : status < 600) :
    (main cfg hx file0 (.resp status eh lh x ig) nowStr pr tUpd tOk).file = file0 ∧
    (main cfg hx file0 (.resp status eh lh x ig) nowStr pr tUpd tOk).err
      = some (.httpStatus status) := by
  have h304 : ¬status = 304 := by omega
  simp [main, hT, fetch_content, h304, h4, h6]

/-- Witness for the amended C6 at a concrete 404 response. -/
theorem fetch_error_aborts_without_any_persistence_witness :
    (main cfgBase hxId (some stA) (.resp 404 (some "fresh") none "body" none)
        "T2" true 7 8).file = some stA ∧
    (main cfgBase hxId (some stA) (.resp 404 (some "fresh") none "body" none)
        "T2" true 7 8).err = some (.httpStatus 404) :=
  fetch_error_aborts_without_any_persistence cfgBase hxId (some stA) 404
    (some "fresh") none "body" none "T2" true 7 8 (by decide) (by decide) (by decide)

/-- Claim C7: when an ignore pattern is supplied but invalid (the
`re.sub` call raises `re.error`, modelled by the `none` substitution
outcome), the removal step is skipped silently: the fetch behaves
exactly as if no pattern were configured, and on any non-304,
non-error status it still succeeds with the normalized text unchanged
by that step. -/
theorem invalid_pattern_skipped_silently (cfg : Config) (etag lm : Option String)
    (status : Nat) (eh lh : Option String) (extracted : String)
    (hP : cfg.IGNORE_REGEX ≠ "") :
    fetch_content cfg etag lm (.resp status eh lh extracted none)
      = fetch_content { cfg with IGNORE_REGEX := "" } etag lm
          (.resp status eh lh extracted none) ∧
    (status ≠ 304 → ¬(400 ≤ status ∧ status < 600) →
      fetch_content cfg etag lm (.resp status eh lh extracted none)
        = .ok (.modified (pyStrip (subWsNewline extracted))
            (headerOr eh etag) (headerOr lh lm))) := by
  constructor
  · simp [fetch_content, hP]
  · intro h1 h2
    simp [fetch_content, hP, h1, h2]

/-- Witness for C7 at a concrete unbalanced-parenthesis pattern and a
200 response. -/
theorem invalid_pattern_skipped_silently_witness :
    (fetch_content cfgIgn (some "e") none (.resp 200 none none " raw \n text " none)
      = fetch_content { cfgIgn with IGNORE_REGEX := "" } (some "e") none
          (.resp 200 none none " raw \n text " none)) ∧
    ((200 : Nat) ≠ 304 → ¬(400 ≤ (200 : Nat) ∧ (200 : Nat) < 600) →
      fetch_content cfgIgn (some "e") none (.resp 200 none none " raw \n text " none)
        = .ok (.modified (pyStrip (subWsNewline " raw \n text "))
            (headerOr none (some "e")) (headerOr none none))) :=
  invalid_pattern_skipped_silently cfgIgn (some "e") none 200 none none
    " raw \n text " (by decide)

/-- Claim C8: with the template from the spec configured, substituting
the example URL, TIME and DIFF values produces exactly the expected
message; the {URL}, {TIME} and {DIFF} placeholders are replaced
literally by the corresponding values. -/
theorem template_substitution_example :
    build_message cfgTpl "2024-01-01 00:00:00" "https://example.com" "+new line"
      = "https://example.com changed at 2024-01-01 00:00:00: +new line" := by
  decide

/-- Claim C2: on every run that completes successfully, the persisted
record carries the validators returned by the fetch (on 304 these are
the preserved input validators) and a fresh `last_ok_run`, while
`last_hash`, `last_excerpt` and `updated_at` are byte-identical to
their values before the run whenever no change is detected — in
particular after every 304 run. -/
theorem successful_run_updates_bookkeeping (cfg : Config) (hx : Hx)
    (file0 : Option MonitorState) (out : HttpGetOutcome) (nowStr : String)
    (pr : Bool) (tUpd tOk : Int) (fr : FetchOk)
    (hT : cfg.TARGET_URL ≠ "")
    (hf : fetch_content cfg (load_state file0).etag (load_state file0).last_modified out
      = .ok fr) :
    ∃ s, (main cfg hx file0 out nowStr pr tUpd tOk).file = some s ∧
      s.last_ok_run = some tOk ∧
      s.etag = fetchedEtag fr ∧
      s.last_modified = fetchedLm fr ∧
      (changeDetected hx (load_state file0) fr = false →
        s.last_hash = (load_state file0).last_hash ∧
        s.last_excerpt = (load_state file0).last_excerpt ∧
        s.updated_at = (load_state file0).updated_at) := by
  cases fr with
  | notModified e l =>
      obtain ⟨he, hl⟩ := fetch_notModified_preserves cfg _ _ out e l hf
      refine ⟨{ load_state file0 with last_ok_run := some tOk }, ?_, rfl, ?_, ?_, ?_⟩
      · simp [main, hT, hf, save_state]
      · simp only [fetchedEtag]
        exact he.symm
      · simp only [fetchedLm]
        exact hl.symm
      · intro _
        exact ⟨rfl, rfl, rfl⟩
  | modified t e l =>
      by_cases hch : some (hx.sha256 t) = (load_state file0).last_hash
      · refine ⟨{ load_state file0 with
            etag := e, last_modified := l, last_ok_run := some tOk },
            ?_, rfl, rfl, rfl, ?_⟩
        · simp [main, hT, hf, save_state, hch]
        · intro _
          exact ⟨rfl, rfl, rfl⟩
      · refine ⟨{ last_hash := some (hx.sha256 t),
                  last_excerpt := pyJoinNl ((pySplitlines t).take 400),
                  updated_at := some tUpd, etag := e, last_modified := l,
                  last_ok_run := some tOk }, ?_, rfl, rfl, rfl, ?_⟩
        · simp [main, hT, hf, save_state, hch]
        · intro hcd
          exfalso
          simp [changeDetected, hch] at hcd

/-- Witness for C2 at a concrete 304 run against a populated state
file. -/
theorem successful_run_updates_bookkeeping_witness :
    ∃ s, (main cfgBase hxId (some stA) (.resp 304 none none "" none) "T" false 1 2).file
        = some s ∧
      s.last_ok_run = some 2 ∧
      s.etag = fetchedEtag (.notModified (some "old") (some "lmv")) ∧
      s.last_modified = fetchedLm (.notModified (some "old") (some "lmv")) ∧
      (changeDetected hxId (load_state (some stA)) (.notModified (some "old") (some "lmv"))
          = false →
        s.last_hash = (load_state (some stA)).last_hash ∧
        s.last_excerpt = (load_state (some stA)).last_excerpt ∧
        s.updated_at = (load_state (some stA)).updated_at) :=
  successful_run_updates_bookkeeping cfgBase hxId (some stA)
    (.resp 304 none none "" none) "T" false 1 2
    (.notModified (some "old") (some "lmv")) (by decide) (by decide)

/-- Claim C3: on a run where `last_hash` is absent (first run) and the
fetch succeeds with content, a change is always recorded — new hash,
excerpt of the first 400 lines and `updated_at` are persisted — and a
notification is attempted (`send_ntfy` is called with the built
message), regardless of what the content is, including empty
normalized text. -/
theorem first_run_records_change_and_notifies (cfg : Config) (hx : Hx)
    (file0 : Option MonitorState) (out : HttpGetOutcome) (nowStr : String)
    (pr : Bool) (tUpd tOk : Int) (content : String) (etag lm : Option String)
    (hT : cfg.TARGET_URL ≠ "")
    (h0 : (load_state file0).last_hash = none)
    (hf : fetch_content cfg (load_state file0).etag (load_state file0).last_modified out
      = .ok (.modified content etag lm)) :
    ∃ s, (main cfg hx file0 out nowStr pr tUpd tOk).file = some s ∧
      s.last_hash = some (hx.sha256 content) ∧
      s.last_excerpt = pyJoinNl ((pySplitlines content).take 400) ∧
      s.updated_at = some tUpd ∧
      s.etag = etag ∧ s.last_modified = lm ∧ s.last_ok_run = some tOk ∧
      (main cfg hx file0 out nowStr pr tUpd tOk).notified
        = some (cfg.NOTIFY_TITLE, build_message cfg nowStr cfg.TARGET_URL
            (render_diff (hx.unified_diff
              (pySplitlines (load_state file0).last_excerpt)
              (pySplitlines content)))) := by
  have hch : ¬(some (hx.sha256 content) = (load_state file0).last_hash) := by
    rw [h0]
    simp
  refine ⟨{ last_hash := some (hx.sha256 content),
            last_excerpt := pyJoinNl ((pySplitlines content).take 400),
            updated_at := some tUpd, etag := etag, last_modified := lm,
            last_ok_run := some tOk }, ?_, rfl, rfl, rfl, rfl, rfl, rfl, ?_⟩
  · simp [main, hT, hf, hch, save_state]
  · simp [main, hT, hf, hch]

/-- Witness for C3 at a first run (no state file) whose fetch yields
empty normalized content. -/
theorem first_run_records_change_and_notifies_witness :
    ∃ s, (main cfgBase hxId none (.resp 200 none none "" none) "T" false 7 8).file
        = some s ∧
      s.last_hash = some (hxId.sha256 "") ∧
      s.last_excerpt = pyJoinNl ((pySplitlines "").take 400) ∧
      s.updated_at = some 7 ∧
      s.etag = none ∧ s.last_modified = none ∧ s.last_ok_run = some 8 ∧
      (main cfgBase hxId none (.resp 200 none none "" none) "T" false 7 8).notified
        = some (cfgBase.NOTIFY_TITLE, build_message cfgBase "T" cfgBase.TARGET_URL
            (render_diff (hxId.unified_diff
              (pySplitlines (load_state none).last_excerpt)
              (pySplitlines "")))) :=
  first_run_records_change_and_notifies cfgBase hxId none
    (.resp 200 none none "" none) "T" false 7 8 "" none none
    (by decide) (by decide) (by decide)

/-- Claim C9: the empty-diff placeholder is reachable with genuinely
different content: when the stored hash fingerprints a previous
content of more than 400 lines while the stored excerpt keeps only
its first 400 lines, and the new fetch returns exactly that excerpt,
the fingerprints differ, so a change is detected and notified, yet
the unified diff of the (equal) line lists is empty and the
placeholder is used. -/
theorem placeholder_reachable_with_real_change (cfg : Config) (hx : Hx)
    (st0 : MonitorState) (oldContent excerpt : String) (out : HttpGetOutcome)
    (etag lm : Option String) (nowStr : String) (pr : Bool) (tUpd tOk : Int)
    (hT : cfg.TARGET_URL ≠ "") (hTopic : cfg.NTFY_TOPIC ≠ "")
    (hLines : 400 < (pySplitlines oldContent).length)
    (hEx : excerpt = pyJoinNl ((pySplitlines oldContent).take 400))
    (hH : st0.last_hash = some (hx.sha256 oldContent))
    (hE : st0.last_excerpt = excerpt)
    (hNe : hx.sha256 excerpt ≠ hx.sha256 oldContent)
    (hDiff : hx.unified_diff (pySplitlines excerpt) (pySplitlines excerpt) = [])
    (hf : fetch_content cfg st0.etag st0.last_modified out
      = .ok (.modified excerpt etag lm)) :
    ∃ s, (main cfg hx (some st0) out nowStr pr tUpd tOk).file = some s ∧
      s.last_hash = some (hx.sha256 excerpt) ∧
      (main cfg hx (some st0) out nowStr pr tUpd tOk).notified
        = some (cfg.NOTIFY_TITLE,
            build_message cfg nowStr cfg.TARGET_URL "(Inhalt geändert)") ∧
      (main cfg hx (some st0) out nowStr pr tUpd tOk).posts ≠ [] := by
  have hch : ¬(some (hx.sha256 excerpt) = st0.last_hash) := by
    rw [hH]
    simpa using hNe
  have hdl : hx.unified_diff (pySplitlines st0.last_excerpt)
      (pySplitlines excerpt) = [] := by
    rw [hE]
    exact hDiff
  refine ⟨{ last_hash := some (hx.sha256 excerpt),
            last_excerpt := pyJoinNl ((pySplitlines excerpt).take 400),
            updated_at := some tUpd, etag := etag, last_modified := lm,
            last_ok_run := some tOk }, ?_, rfl, ?_, ?_⟩
  · simp [main, load_state, hT, hf, hch, save_state]
  · simp [main, load_state, hT, hf, hch, hdl, render_diff]
  · cases pr <;> simp [main, load_state, hT, hf, hch, send_ntfy, hTopic]

set_option maxRecDepth 100000

/-- Witness for C9: a 401-line previous content, its stored 400-line
excerpt, and a fetch returning exactly that excerpt. -/
theorem placeholder_reachable_with_real_change_witness :
    ∃ s, (main cfgBase hxId (some st9) (.resp 200 none none oldExcerpt none)
        "T" false 21 22).file = some s ∧
      s.last_hash = some (hxId.sha256 oldExcerpt) ∧
      (main cfgBase hxId (some st9) (.resp 200 none none oldExcerpt none)
        "T" false 21 22).notified
        = some (cfgBase.NOTIFY_TITLE,
            build_message cfgBase "T" cfgBase.TARGET_URL "(Inhalt geändert)") ∧
      (main cfgBase hxId (some st9) (.resp 200 none none oldExcerpt none)
        "T" false 21 22).posts ≠ [] :=
  placeholder_reachable_with_real_change cfgBase hxId st9 oldFull oldExcerpt
    (.resp 200 none none oldExcerpt none) none none "T" false 21 22
    (by decide) (by decide) (by decide) rfl rfl rfl (by decide) (by decide) (by decide)

/-- Claim C10: placeholder substitution is sequential ({URL} first,
then {TIME}, then {DIFF}), so a URL containing the literal text
"\x7bTIME\x7d" has that text replaced again by the later TIME
substitution, and the URL does not appear verbatim in the rendered
message. -/
theorem sequential_substitution_url_not_verbatim :
    build_message cfgTpl "12:00" "https://example.com/{TIME}" "+x"
      = "https://example.com/12:00 changed at 12:00: +x" ∧
    hasSubstr "https://example.com/{TIME}".data
      (build_message cfgTpl "12:00" "https://example.com/{TIME}" "+x").data = false := by
  decide

end Monitor
